import Mathlib

/-!
Shallow embedding of the BTM security engine of
`system/stack/btm/btm_sec.cc` (Android Bluetooth stack), covering the
per-device security procedure engine, the bonding entry point, the
encryption request entry point, the pending-request queue, the
collision/retry logic and the callback delivery helper.

Bitmask words of the original C (`sec_flags`, `security_required`, `sm4`)
are represented as records of named booleans: every operation in the
translated source addresses these words only through named masks, so the
numeric bit positions (defined in headers outside the extracted sources)
are not observable.  External collaborators (controller, L2CAP, SMP, HCI
transport, timers) are modelled as an environment record of call results,
and the commands/invocations the code sends to them are modelled as an
ordered list of `Action`s.
-/

namespace BtmSec

/-- Per-device security procedure sub-states (`BTM_SEC_STATE_*`). -/
inductive SecState
  | idle
  | authenticating
  | encrypting
  | gettingName
  | authorizing
  | disconnecting
  | delayForEnc
  | disconnectingBle
  | disconnectingBoth
  | leEncrypting
  deriving DecidableEq, Repr

/-- Global pairing state machine states (`BTM_PAIR_STATE_*`). -/
inductive PairingState
  | idle
  | getRemName
  | waitPinReq
  | waitLocalPin
  | waitNumericConfirm
  | keyEntry
  | waitLocalOobRsp
  | waitLocalIocaps
  | incomingSsp
  | waitAuthComplete
  | waitDisconnect
  deriving DecidableEq, Repr

/-- Link transports (`tBT_TRANSPORT`); `auto` stands for any value that is
neither BR/EDR nor LE and thus falls into the `default` switch branches. -/
inductive Transport
  | brEdr
  | le
  | auto
  deriving DecidableEq, Repr

/-- BTM status codes (`tBTM_STATUS`) used by the embedded functions. -/
inductive BtmStatus
  | success
  | successNoSecurity
  | cmdStarted
  | busy
  | noResources
  | modeUnsupported
  | illegalValue
  | wrongMode
  | unknownAddr
  | deviceTimeout
  | badValueRet
  | errProcessing
  | notAuthorized
  | devReset
  | cmdStored
  | illegalAction
  | delayCheck
  | scOnlyRefused
  | scFailed
  | failedOnSecurity
  | mode4Level4NotSupported
  deriving DecidableEq, Repr

/-- HCI status codes (`tHCI_STATUS`) distinguished by the embedded code. -/
inductive HciStatus
  | success
  | authFailure
  | keyMissing
  | commandDisallowed
  | lmpErrTransCollision
  | diffTransactionCollision
  | peerUser
  | otherError
  deriving DecidableEq, Repr

/-- Link key types (`tBTM_LINK_KEY_TYPE`). -/
inductive LinkKeyType
  | comb
  | localUnit
  | remoteUnit
  | debugComb
  | unauthComb
  | authComb
  | changedComb
  | unauthCombP256
  | authCombP256
  | unknown
  deriving DecidableEq, Repr

/-- Local security modes (`btm_cb.security_mode`). -/
inductive SecurityMode
  | undefinedMode
  | service
  | sp
  | sc
  deriving DecidableEq, Repr

/-- IO capabilities (`BTM_IO_CAP_*`); `invalid` stands for any value that is
not below `BTM_IO_CAP_MAX`. -/
inductive IoCap
  | out
  | io
  | input
  | noInputNoOutput
  | invalid
  deriving DecidableEq, Repr

/-- LE security actions (`tBTM_BLE_SEC_ACT`). -/
inductive BleSecAct
  | none
  | encrypt
  | encryptNoMitm
  | encryptMitm
  deriving DecidableEq, Repr

/-- The per-device `sec_flags` bitmask, one named boolean per mask bit.
The BR/EDR bits and the LE bits (`BTM_SEC_LE_*`, byte-shifted in the
original word) are separate fields. -/
structure SecFlags where
  authenticated : Bool
  encrypted : Bool
  nameKnown : Bool
  linkKeyKnown : Bool
  linkKeyAuthed : Bool
  sixteenDigitPinAuthed : Bool
  roleSwitched : Bool
  inMemory : Bool
  leAuthenticated : Bool
  leEncrypted : Bool
  leLinkKeyKnown : Bool
  leLinkKeyAuthed : Bool
  deriving DecidableEq, Repr

/-- The `security_required` bitmask, one named boolean per mask bit.
Modelled from the spec: the numeric values of `BTM_SEC_OUT_*` /
`BTM_SEC_IN_*` live in a header outside the extracted sources; the
compound masks `BTM_SEC_OUT_FLAGS = OUT_AUTHENTICATE|OUT_ENCRYPT` and
`BTM_SEC_IN_FLAGS = IN_AUTHENTICATE|IN_ENCRYPT` are expanded at use
sites. -/
structure SecReq where
  outAuthenticate : Bool
  outEncrypt : Bool
  outMitm : Bool
  inAuthenticate : Bool
  inEncrypt : Bool
  inMitm : Bool
  inMin16DigitPin : Bool
  mode4Level4 : Bool
  deriving DecidableEq, Repr

/-- The `sm4` secure-simple-pairing capability bitmask.
Modelled from the spec: the bit constants live in a header outside the
extracted sources; `BTM_SM4_TRUE` is the pair (known, sspTrue), so
`BTM_SEC_IS_SM4(x)` is `known && sspTrue`, `BTM_SEC_IS_SM4_UNKNOWN(x)` is
`!known && !sspTrue`, and an exact comparison with `BTM_SM4_KNOWN` means
`known` set and every other bit clear. -/
structure SM4 where
  known : Bool
  sspTrue : Bool
  upgrade : Bool
  reqPend : Bool
  ddAcp : Bool
  connPend : Bool
  retry : Bool
  deriving DecidableEq, Repr

/-- BTM_SEC_IS_SM4: peer is known to support secure simple pairing. -/
def SM4.isSm4 (s : SM4) : Bool := s.known && s.sspTrue

/-- BTM_SEC_IS_SM4_UNKNOWN: peer SSP support not yet known. -/
def SM4.isSm4Unknown (s : SM4) : Bool := !s.known && !s.sspTrue

/-- Exact equality test `BTM_SM4_KNOWN == sm4` (peer known legacy, no
other bit set). -/
def SM4.isExactlyKnown (s : SM4) : Bool :=
  s.known && !s.sspTrue && !s.upgrade && !s.reqPend && !s.ddAcp &&
    !s.connPend && !s.retry

/-- One per-peer security record (`tBTM_SEC_DEV_REC`), restricted to the
fields read or written by the embedded functions.  `hciHandle = none`
represents `HCI_INVALID_HANDLE`.  `supportsSecureConnections` embeds the
header accessor `SupportsSecureConnections()` (remote feature bit), and
`bondTypeTemporary` the accessor `is_bond_type_temporary()`. -/
structure DevRec where
  bdAddr : Nat
  secState : SecState
  secFlags : SecFlags
  securityRequired : SecReq
  requiredSecurityFlagsForPairing : SecReq
  hciHandle : Option Nat
  bleHciHandle : Option Nat
  isOriginator : Bool
  linkKeyType : LinkKeyType
  bondTypeTemporary : Bool
  sm4 : SM4
  pCallback : Option Nat
  pRefData : Nat
  rmtIoCaps : IoCap
  pinCodeLength : Nat
  supportsSecureConnections : Bool
  isKeyboardCod : Bool
  isCarkitCod : Bool
  deriving DecidableEq, Repr

/-- Accessor `tBTM_SEC_DEV_REC::IsLocallyInitiated()`.
Modelled from the spec: the accessor body lives in a header outside the
extracted sources; it reports whether the record's active request was
locally originated (`is_originator`). -/
def DevRec.isLocallyInitiated (d : DevRec) : Bool := d.isOriginator

/-- Accessor `tBTM_SEC_DEV_REC::is_security_state_bredr_encrypting()`.
Modelled from the spec: the accessor body lives in a header outside the
extracted sources; the spec's engine states name both `ENCRYPTING` and
`DELAY_FOR_ENC` as the BR/EDR encrypting-in-progress states. -/
def DevRec.isSecurityStateBredrEncrypting (d : DevRec) : Bool :=
  d.secState = SecState.encrypting || d.secState = SecState.delayForEnc

/-- A pending-queue element (`tBTM_SEC_QUEUE_ENTRY`). -/
structure QueueEntry where
  psm : Nat
  isOrig : Bool
  rfcommSecurityRequirement : SecReq
  pCallback : Option Nat
  pRefData : Nat
  transport : Transport
  secAct : BleSecAct
  bdAddr : Nat
  deriving DecidableEq, Repr

/-- Global pairing flags (`btm_cb.pairing_flags`), one boolean per bit. -/
structure PairingFlags where
  weStartedDd : Bool
  discWhenDone : Bool
  rejectedConnect : Bool
  pinReqd : Bool
  leActive : Bool
  weCancelDd : Bool
  deriving DecidableEq, Repr

/-- The all-clear pairing flags value (`pairing_flags = 0`). -/
def PairingFlags.cleared : PairingFlags :=
  ⟨false, false, false, false, false, false⟩

/-- The slice of the global control block `btm_cb` touched by the
embedded functions. -/
structure Global where
  pairingState : PairingState
  pairingFlags : PairingFlags
  pairingBda : Nat
  pinCodeLen : Nat
  securityMode : SecurityMode
  collisionStartTime : Nat
  secReqPending : Bool
  secPendingQ : List QueueEntry
  securityModeChanged : Bool
  pinTypeChanged : Bool
  locIoCaps : IoCap
  cfgPinType : Nat
  deriving DecidableEq, Repr

/-- Observable interactions with external collaborators (HCI commands,
timers, callback invocations, queue/L2CAP notifications), in program
order. -/
inductive Action
  | sendRemoteNameRequest (addr : Nat)
  | startAuthenticationDelayed (addr : Nat)
  | hciAuthRequest (handle : Nat)
  | hciSetConnEncrypt (handle : Nat)
  | hciWriteAuthEnable (enable : Bool)
  | hciWritePinType (fixed : Bool)
  | hciDeleteStoredLinkKey (addr : Nat)
  | hciCreateConnCancel (addr : Nat)
  | invokeCallback (cb : Nat) (transport : Transport) (refData : Nat)
      (status : BtmStatus)
  | scheduleCallback (cb : Nat) (transport : Transport) (refData : Nat)
      (status : BtmStatus)
  | enqueuePending (e : QueueEntry)
  | armCollisionTimer (ms : Nat)
  | armPairingTimer (ms : Nat)
  | cancelPairingTimer
  | updateLcbBonding (addr : Nat) (bonding : Bool)
  | resubmitL2capSecReq
  | resubmitMx (addr : Nat) (isOrig : Bool) (req : SecReq)
      (cb : Option Nat) (refData : Nat)
  | resubmitEnc (addr : Nat) (transport : Transport) (cb : Option Nat)
      (refData : Nat) (secAct : BleSecAct)
  | smpPair (addr : Nat)
  | clearInqSsp
  | readRemoteDeviceName (addr : Nat)
  | connectAclForSecurity (addr : Nat)
  | pinCodeReply (addr : Nat)
  | pinCallback (addr : Nat)
  | bleSetEncryption (addr : Nat)
  | startPostBondTimer
  | devRecCallbackEvent (status : BtmStatus)
  deriving DecidableEq, Repr

/-- Results supplied by external collaborators, fixed for one call. -/
structure Env where
  deviceUp : Bool
  controllerReady : Bool
  supportsSimplePairing : Bool
  supportsSecureConnections : Bool
  deleteStoredLinkKeyStatus : BtmStatus
  smpPairStarted : Bool
  aclUpBrEdr : Nat → Bool
  aclUpLe : Nat → Bool
  readRemoteNameStatus : BtmStatus
  connectAclStatus : BtmStatus
  bleSetEncryptionStatus : BtmStatus
  aclUpAndHandleValidBrEdr : Nat → Bool
  aclUpAndHandleValidLe : Nat → Bool
  hciConnHandle : Nat → Option Nat
  pinCallbackRegistered : Bool
  useLeLink : Nat → Bool
  devTypeBredr : Nat → Bool
  devTypeBle : Nat → Bool

/-- ACL link liveness per transport (`BTM_IsAclConnectionUp`). -/
def Env.aclUp (env : Env) (addr : Nat) : Transport → Bool
  | Transport.brEdr => env.aclUpBrEdr addr
  | Transport.le => env.aclUpLe addr
  | Transport.auto => false

/-- ACL link liveness with handle validity per transport
(`BTM_IsAclConnectionUpAndHandleValid`). -/
def Env.aclUpAndHandleValid (env : Env) (addr : Nat) : Transport → Bool
  | Transport.brEdr => env.aclUpAndHandleValidBrEdr addr
  | Transport.le => env.aclUpAndHandleValidLe addr
  | Transport.auto => false

/-- Result of a per-record procedure: updated record, returned status and
emitted actions. -/
structure ProcResult where
  dev : DevRec
  status : BtmStatus
  actions : List Action
  deriving DecidableEq, Repr

/-- Function `btm_dev_authenticated` (btm_sec.cc:193). -/
def btm_dev_authenticated (d : DevRec) : Bool := d.secFlags.authenticated

/-- Function `btm_dev_encrypted` (btm_sec.cc:209). -/
def btm_dev_encrypted (d : DevRec) : Bool := d.secFlags.encrypted

/-- Function `btm_dev_16_digit_authenticated` (btm_sec.cc:225). -/
def btm_dev_16_digit_authenticated (d : DevRec) : Bool :=
  d.secFlags.sixteenDigitPinAuthed

/-- Function `access_secure_service_from_temp_bond` (btm_sec.cc:347). -/
def access_secure_service_from_temp_bond (d : DevRec)
    (locallyInitiated : Bool) (securityReq : SecReq) : Bool :=
  !locallyInitiated && securityReq.inAuthenticate && d.bondTypeTemporary

/-- The start-authentication trigger computed inside
`btm_sec_execute_procedure` (btm_sec.cc:4593-4625): authentication or
encryption demanded on the matching direction while not yet
authenticated, or an incoming minimum-16-digit-PIN demand while not yet
16-digit authenticated. -/
def execStartAuth (d : DevRec) : Bool :=
  (if !d.secFlags.authenticated then
    (if d.isLocallyInitiated then
      d.securityRequired.outAuthenticate || d.securityRequired.outEncrypt
    else
      d.securityRequired.inAuthenticate || d.securityRequired.inEncrypt)
  else false) ||
  (if !d.secFlags.sixteenDigitPinAuthed then
    (if !d.isLocallyInitiated then d.securityRequired.inMin16DigitPin
     else false)
  else false)

/-- Function `btm_sec_execute_procedure` (btm_sec.cc:4563-4695), with
`btm_sec_start_get_name` (btm_sec.cc:4706) inlined at its single call
site and `btm_sec_wait_and_start_authentication` modelled as the action
`startAuthenticationDelayed`. -/
def btm_sec_execute_procedure (env : Env) (d : DevRec) : ProcResult :=
  if d.secState ≠ SecState.idle ∧ d.secState ≠ SecState.leEncrypting then
    ⟨d, BtmStatus.cmdStarted, []⟩
  else if !d.secFlags.nameKnown ∧ d.hciHandle ≠ none then
    if !env.deviceUp then ⟨d, BtmStatus.noResources, []⟩
    else
      ⟨{ d with secState := SecState.gettingName }, BtmStatus.cmdStarted,
        [Action.sendRemoteNameRequest d.bdAddr]⟩
  else if d.hciHandle ≠ none ∧ execStartAuth d then
    let d1 :=
      if d.secFlags.linkKeyKnown ∧ (!d.secFlags.sixteenDigitPinAuthed ∧
          (!d.isLocallyInitiated ∧ d.securityRequired.inMin16DigitPin)) then
        { d with secFlags := { d.secFlags with
            linkKeyKnown := false
            linkKeyAuthed := false
            authenticated := false } }
      else d
    ⟨d1, BtmStatus.cmdStarted, [Action.startAuthenticationDelayed d.bdAddr]⟩
  else if !d.secFlags.encrypted ∧
      ((d.isLocallyInitiated ∧ d.securityRequired.outEncrypt) ∨
        (!d.isLocallyInitiated ∧ d.securityRequired.inEncrypt)) ∧
      d.hciHandle ≠ none then
    ⟨{ d with secState := SecState.encrypting }, BtmStatus.cmdStarted,
      [Action.hciSetConnEncrypt (d.hciHandle.getD 0)]⟩
  else if d.securityRequired.mode4Level4 ∧
      d.linkKeyType ≠ LinkKeyType.authCombP256 then
    ⟨d, BtmStatus.failedOnSecurity, []⟩
  else if access_secure_service_from_temp_bond d d.isLocallyInitiated
      d.securityRequired then
    ⟨d, BtmStatus.failedOnSecurity, []⟩
  else
    ⟨{ d with securityRequired := { d.securityRequired with
        outAuthenticate := false
        inAuthenticate := false
        outEncrypt := false
        inEncrypt := false } },
      BtmStatus.success, []⟩

/-- A step observable during `btm_sec_dev_rec_cback_event`: a callback
invocation (carrying the record state the re-entrant callee can observe)
or the trailing `btm_sec_check_pending_reqs` call. -/
inductive CbEvent
  | invoke (cb : Nat) (transport : Transport) (refData : Nat)
      (status : BtmStatus) (recAtCall : DevRec)
  | checkPendingReqs
  deriving DecidableEq, Repr

/-- Result of `btm_sec_dev_rec_cback_event`: the updated record plus the
ordered observable steps. -/
structure CbDeliveryResult where
  dev : DevRec
  events : List CbEvent
  deriving DecidableEq, Repr

/-- Function `btm_sec_dev_rec_cback_event` (btm_sec.cc:4978-4997): saves
the stored callback pointer, nulls the field, invokes the saved pointer
if non-null (the re-entrant callee observes the already-cleared record),
then calls `btm_sec_check_pending_reqs` unconditionally. -/
def btm_sec_dev_rec_cback_event (d : DevRec) (btmStatus : BtmStatus)
    (isLeTransport : Bool) : CbDeliveryResult :=
  let savedCb := d.pCallback
  let d1 := { d with pCallback := none }
  match savedCb with
  | some cb =>
      ⟨d1, [CbEvent.invoke cb
              (if isLeTransport then Transport.le else Transport.brEdr)
              d1.pRefData btmStatus d1,
            CbEvent.checkPendingReqs]⟩
  | none => ⟨d1, [CbEvent.checkPendingReqs]⟩

/-- Function `btm_restore_mode` (btm_sec.cc:4848-4858). -/
def btm_restore_mode (g : Global) : Global × List Action :=
  let p1 :=
    if g.securityModeChanged then
      ({ g with securityModeChanged := false },
        [Action.hciWriteAuthEnable false])
    else (g, [])
  if p1.1.pinTypeChanged then
    ({ p1.1 with pinTypeChanged := false },
      p1.2 ++ [Action.hciWritePinType p1.1.cfgPinType])
  else p1

/-- Resubmission performed for one drained queue element inside
`btm_sec_check_pending_reqs` (btm_sec.cc:2264-2281): entries whose ACL
link is down are freed without any call; live entries go back through
`btm_sec_mx_access_request` (psm not 0) or `BTM_SetEncryption` (psm 0). -/
def resubmitEntry (env : Env) (e : QueueEntry) : List Action :=
  if env.aclUp e.bdAddr e.transport then
    if e.psm ≠ 0 then
      [Action.resubmitMx e.bdAddr e.isOrig e.rfcommSecurityRequirement
        e.pCallback e.pRefData]
    else
      [Action.resubmitEnc e.bdAddr e.transport e.pCallback e.pRefData
        e.secAct]
  else []

/-- Function `btm_sec_check_pending_reqs` (btm_sec.cc:2250-2284): only
when the global pairing state is IDLE, resubmit the deferred L2CAP
security request if flagged, then drain the pending queue in FIFO order
(the live queue is swapped for a fresh empty one before draining). -/
def btm_sec_check_pending_reqs (env : Env) (g : Global) :
    Global × List Action :=
  if g.pairingState = PairingState.idle then
    let l2capActs :=
      if g.secReqPending then [Action.resubmitL2capSecReq] else []
    let drainActs := (g.secPendingQ.map (resubmitEntry env)).flatten
    ({ g with secReqPending := false, secPendingQ := [] },
      l2capActs ++ drainActs)
  else (g, [])

/-- The `RawAddress::kAny` sentinel restored into `pairing_bda` when the
pairing machine returns to IDLE. -/
def kAnyAddr : Nat := 0

/-- Pairing watchdog timeout `BTM_SEC_TIMEOUT_VALUE * 1000` ms.
Modelled from the spec: the constant lives in a header outside the
extracted sources; the spec documents a 30 s default. -/
def btmSecTimeoutMs : Nat := 30000

/-- Function `btm_sec_change_pairing_state` (btm_sec.cc:4893-4930).  On
entry to IDLE: cancel the watchdog, clear flags and the PIN length, mark
the L2CAP lcb as not bonding, restore mode, drain pending requests, clear
inquiry SSP state and reset `pairing_bda`; otherwise (re)arm the watchdog
and, when leaving IDLE, mark the lcb as bonding. -/
def btm_sec_change_pairing_state (env : Env) (g : Global)
    (newState : PairingState) : Global × List Action :=
  let oldState := g.pairingState
  let g1 := { g with pairingState := newState }
  if newState = PairingState.idle then
    let g2 := { g1 with
      pairingFlags := PairingFlags.cleared
      pinCodeLen := 0 }
    let restored := btm_restore_mode g2
    let drained := btm_sec_check_pending_reqs env restored.1
    ({ drained.1 with pairingBda := kAnyAddr },
      [Action.cancelPairingTimer,
        Action.updateLcbBonding g.pairingBda false] ++
        restored.2 ++ drained.2 ++ [Action.clearInqSsp])
  else
    (g1,
      (if oldState = PairingState.idle then
        [Action.updateLcbBonding g.pairingBda true]
      else []) ++ [Action.armPairingTimer btmSecTimeoutMs])

/-- Constant `BTM_SEC_MAX_COLLISION_DELAY` (btm_sec.cc:68). -/
def btmSecMaxCollisionDelay : Nat := 5000

/-- Constant `BT_1SEC_TIMEOUT_MS`.
Modelled from the spec: the constant lives in a header outside the
extracted sources; it is the fixed one-second retry delay. -/
def bt1secTimeoutMs : Nat := 1000

/-- Unsigned 64-bit subtraction `a - b` as performed on the millisecond
boot-time clock values in the collision window test. -/
def u64sub (a b : Nat) : Nat := (a + (2 ^ 64 - b % 2 ^ 64)) % 2 ^ 64

/-- Result of `btm_sec_auth_collision`: updated globals, the (possibly
updated) record found by the handle / state lookup, and emitted
actions. -/
structure CollisionResult where
  g : Global
  dev : Option DevRec
  actions : List Action
  deriving Repr

/-- Function `btm_sec_auth_collision` (btm_sec.cc:3212-3241).  `now` is
the current boot-time in ms; `lookup` is the record found by handle (or,
for an invalid handle, the first record in the AUTHENTICATING else
ENCRYPTING state).  Within the 5 s collision window the found record in
an authenticating or BR/EDR-encrypting state is reset to IDLE and the
1 s collision timer is armed; outside the window nothing happens. -/
def btm_sec_auth_collision (g : Global) (now : Nat)
    (lookup : Option DevRec) : CollisionResult :=
  let g1 :=
    if g.collisionStartTime = 0 then { g with collisionStartTime := now }
    else g
  if u64sub now g1.collisionStartTime < btmSecMaxCollisionDelay then
    match lookup with
    | some d =>
        let d1 :=
          if d.secState = SecState.authenticating ∨
              d.isSecurityStateBredrEncrypting then
            { d with secState := SecState.idle }
          else d
        ⟨g1, some d1, [Action.armCollisionTimer bt1secTimeoutMs]⟩
    | none => ⟨g1, none, []⟩
  else ⟨g1, lookup, []⟩

/-- Function `btm_sec_collision_timeout` (btm_sec.cc:4808-4819): on
collision timer expiry, re-run `btm_sec_execute_procedure` for the
collided record; any status other than `BTM_CMD_STARTED` is delivered to
the waiting layer via `btm_sec_dev_rec_cback_event`. -/
def btm_sec_collision_timeout (env : Env) (d : DevRec) :
    DevRec × List Action :=
  let r := btm_sec_execute_procedure env d
  if r.status ≠ BtmStatus.cmdStarted then
    let c := btm_sec_dev_rec_cback_event r.dev r.status false
    (c.dev, r.actions ++ [Action.devRecCallbackEvent r.status])
  else (r.dev, r.actions)

/-- Result of `btm_sec_auth_retry`: updated globals and record, whether a
silent retry was started, and emitted actions. -/
structure RetryResult where
  g : Global
  dev : Option DevRec
  retried : Bool
  actions : List Action
  deriving Repr

/-- Function `btm_sec_auth_retry` (btm_sec.cc:3253-3285): consume the
one-shot `BTM_SM4_RETRY` flag; if pairing is idle, the flag was not yet
set, the failure status is `HCI_ERR_KEY_MISSING` and the peer is
SSP-capable, then reset the collision clock, restore mode, set the retry
flag, clear the cached link-key-known flag, reset the security state to
IDLE and restart the procedure, reporting `true` (retry in progress). -/
def btm_sec_auth_retry (env : Env) (g : Global) (lookup : Option DevRec)
    (status : HciStatus) : RetryResult :=
  match lookup with
  | none => ⟨g, none, false, []⟩
  | some d =>
      let oldSm4 := d.sm4
      let d1 := { d with sm4 := { d.sm4 with retry := false } }
      if g.pairingState = PairingState.idle ∧ oldSm4.retry = false ∧
          status = HciStatus.keyMissing ∧ d1.sm4.isSm4 then
        let restored := btm_restore_mode { g with collisionStartTime := 0 }
        let d2 := { d1 with
          sm4 := { d1.sm4 with retry := true }
          secFlags := { d1.secFlags with linkKeyKnown := false }
          secState := SecState.idle }
        let r := btm_sec_execute_procedure env d2
        ⟨restored.1, some r.dev, true, restored.2 ++ r.actions⟩
      else ⟨g, some d1, false, []⟩

/-- The all-clear `security_required` value. -/
def SecReq.none : SecReq :=
  ⟨false, false, false, false, false, false, false, false⟩

/-- Function `btm_sec_queue_encrypt_request` (btm_sec.cc:5092-5107):
append a psm-0 (direct encryption) entry to the pending queue.  The
`is_orig` and RFCOMM requirement fields are left untouched by the C code
for encryption entries and are never read for psm 0; they are filled with
fixed defaults here. -/
def btm_sec_queue_encrypt_request (g : Global) (bdAddr : Nat)
    (transport : Transport) (pCallback : Option Nat) (pRefData : Nat)
    (secAct : BleSecAct) : Global :=
  { g with secPendingQ := g.secPendingQ ++
      [⟨0, false, SecReq.none, pCallback, pRefData, transport, secAct,
        bdAddr⟩] }

/-- Function `btm_sec_queue_mx_request` (btm_sec.cc:5016-5038): append a
multiplexor entry (psm, originator flag, RFCOMM requirement, BR/EDR
transport, sec act NONE) to the pending queue. -/
def btm_sec_queue_mx_request (g : Global) (bdAddr : Nat) (psm : Nat)
    (isOrig : Bool) (securityRequired : SecReq) (pCallback : Option Nat)
    (pRefData : Nat) : Global :=
  { g with secPendingQ := g.secPendingQ ++
      [⟨psm, isOrig, securityRequired, pCallback, pRefData,
        Transport.brEdr, BleSecAct.none, bdAddr⟩] }

/-- Result of a global-state entry point: updated globals, the updated
record when one was found, returned status and emitted actions. -/
structure EntryResult where
  g : Global
  dev : Option DevRec
  status : BtmStatus
  actions : List Action
  deriving Repr

/-- Function `BTM_SetEncryption` (btm_sec.cc:1181-1315).  `lookup` is the
result of `btm_find_dev`.  Unknown devices are rejected with
`BTM_WRONG_MODE` and no callback.  A transport whose link is down posts
the callback with `BTM_WRONG_MODE`; an already-encrypted transport posts
it with `BTM_SUCCESS` and changes nothing.  Otherwise an outstanding
callback or a non-IDLE security state queues the request; else the
request is recorded on the device and the procedure (BR/EDR) or the LE
encryption helper is started, posting the callback for any immediate
(non-started, non-busy) result. -/
def BTM_SetEncryption (env : Env) (g : Global) (lookup : Option DevRec)
    (bdAddr : Nat) (transport : Transport) (pCallback : Option Nat)
    (pRefData : Nat) (secAct : BleSecAct) : EntryResult :=
  match lookup with
  | none => ⟨g, none, BtmStatus.wrongMode, []⟩
  | some d =>
      let earlyReturn : Option (BtmStatus × List Action) :=
        match transport with
        | Transport.brEdr =>
            if d.hciHandle = none then
              some (BtmStatus.wrongMode,
                match pCallback with
                | some cb => [Action.scheduleCallback cb transport pRefData
                    BtmStatus.wrongMode]
                | none => [])
            else if d.secFlags.encrypted then
              some (BtmStatus.success,
                match pCallback with
                | some cb => [Action.scheduleCallback cb transport pRefData
                    BtmStatus.success]
                | none => [])
            else none
        | Transport.le =>
            if d.bleHciHandle = none then
              some (BtmStatus.wrongMode,
                match pCallback with
                | some cb => [Action.scheduleCallback cb transport pRefData
                    BtmStatus.wrongMode]
                | none => [])
            else if d.secFlags.leEncrypted then
              some (BtmStatus.success,
                match pCallback with
                | some cb => [Action.scheduleCallback cb transport pRefData
                    BtmStatus.success]
                | none => [])
            else none
        | Transport.auto => none
      match earlyReturn with
      | some r => ⟨g, some d, r.1, r.2⟩
      | none =>
          if d.pCallback ≠ none ∨ d.secState ≠ SecState.idle then
            ⟨btm_sec_queue_encrypt_request g bdAddr transport pCallback
                pRefData secAct,
              some d, BtmStatus.cmdStarted, []⟩
          else
            let d1 := { d with
              pCallback := pCallback
              pRefData := pRefData
              securityRequired := { d.securityRequired with
                inAuthenticate := true
                inEncrypt := true }
              isOriginator := false }
            let afterStart : DevRec × BtmStatus × List Action :=
              match transport with
              | Transport.le =>
                  if env.aclUp bdAddr Transport.le then
                    (d1, env.bleSetEncryptionStatus,
                      [Action.bleSetEncryption bdAddr])
                  else (d1, BtmStatus.wrongMode, [])
              | Transport.brEdr =>
                  let r := btm_sec_execute_procedure env d1
                  (r.dev, r.status, r.actions)
              | Transport.auto => (d1, BtmStatus.success, [])
            let rc := afterStart.2.1
            if rc = BtmStatus.cmdStarted ∨ rc = BtmStatus.busy then
              ⟨g, some afterStart.1, rc, afterStart.2.2⟩
            else
              match pCallback with
              | some cb =>
                  ⟨g, some { afterStart.1 with pCallback := none }, rc,
                    afterStart.2.2 ++
                      [Action.scheduleCallback cb transport
                        afterStart.1.pRefData rc]⟩
              | none => ⟨g, some afterStart.1, rc, afterStart.2.2⟩

/-- Table `btm_sec_io_map` (btm_sec.cc:138-143): whether an
authenticated link key is possible for (remote IO cap, local IO cap). -/
def btm_sec_io_map : IoCap → IoCap → Bool
  | IoCap.out, IoCap.out => false
  | IoCap.out, IoCap.io => false
  | IoCap.out, IoCap.input => true
  | IoCap.out, IoCap.noInputNoOutput => false
  | IoCap.io, IoCap.out => false
  | IoCap.io, IoCap.io => true
  | IoCap.io, IoCap.input => true
  | IoCap.io, IoCap.noInputNoOutput => false
  | IoCap.input, IoCap.out => true
  | IoCap.input, IoCap.io => true
  | IoCap.input, IoCap.input => true
  | IoCap.input, IoCap.noInputNoOutput => false
  | IoCap.noInputNoOutput, _ => false
  | _, _ => false

/-- Function `btm_sec_is_upgrade_possible` (btm_sec.cc:1611-1642). -/
def btm_sec_is_upgrade_possible (g : Global) (d : DevRec)
    (isOriginator : Bool) : Bool :=
  if d.secFlags.linkKeyKnown then
    (if isOriginator then d.securityRequired.outMitm
     else d.securityRequired.inMitm) &&
      (d.linkKeyType = LinkKeyType.unauthComb ||
        d.linkKeyType = LinkKeyType.unauthCombP256) &&
      d.rmtIoCaps ≠ IoCap.invalid &&
      btm_sec_io_map d.rmtIoCaps g.locIoCaps
  else true

/-- Function `btm_sec_check_upgrade` (btm_sec.cc:1654-1671). -/
def btm_sec_check_upgrade (g : Global) (d : DevRec)
    (isOriginator : Bool) : DevRec :=
  if !d.secFlags.linkKeyKnown then d
  else if btm_sec_is_upgrade_possible g d isOriginator then
    { d with
      sm4 := { d.sm4 with upgrade := true }
      secFlags := { d.secFlags with
        linkKeyKnown := false
        linkKeyAuthed := false
        authenticated := false } }
  else d

/-- The legacy-mode guard shared by the two busy paths
(btm_sec.cc:1720-1723 and 1976-1979): local security mode is the legacy
service mode, the peer is known legacy, or the peer is SSP-capable with
no possible link-key upgrade. -/
def busyLegacyMode (g : Global) (d : DevRec) (isOriginator : Bool) :
    Bool :=
  g.securityMode = SecurityMode.service || d.sm4.isExactlyKnown ||
    (d.sm4.isSm4 && !(btm_sec_is_upgrade_possible g d isOriginator))

/-- The already-satisfied evaluation shared by the two busy paths
(btm_sec.cc:1726-1752 and 1982-2008): true when the masked
`security_required` direction flags are already covered by the device's
authenticated / encrypted / 16-digit-authenticated flags. -/
def busyEvalSuccess (d : DevRec) (securityRequired : SecReq)
    (isOriginator : Bool) : Bool :=
  if isOriginator then
    (!securityRequired.outAuthenticate && !securityRequired.outEncrypt) ||
      (securityRequired.outAuthenticate && !securityRequired.outEncrypt &&
        btm_dev_authenticated d) ||
      (securityRequired.outAuthenticate && securityRequired.outEncrypt &&
        btm_dev_encrypted d)
  else
    ((!securityRequired.inAuthenticate && !securityRequired.inEncrypt) ||
      (securityRequired.inAuthenticate && !securityRequired.inEncrypt &&
        btm_dev_authenticated d) ||
      (securityRequired.inAuthenticate && securityRequired.inEncrypt &&
        btm_dev_encrypted d)) &&
      (!securityRequired.inMin16DigitPin ||
        (securityRequired.inMin16DigitPin &&
          btm_dev_16_digit_authenticated d))

/-- Function `btm_sec_l2cap_access_req_by_requirement`
(btm_sec.cc:1673-1871).  `lookup` is the result of
`btm_find_or_alloc_dev` (a fresh allocation may stand behind it); the
record's classic handle is refreshed from the environment first. -/
def btm_sec_l2cap_access_req_by_requirement (env : Env) (g : Global)
    (lookup : DevRec) (bdAddr : Nat) (securityRequired : SecReq)
    (isOriginator : Bool) (pCallback : Option Nat) (pRefData : Nat) :
    EntryResult :=
  let d := { lookup with hciHandle := env.hciConnHandle bdAddr }
  if !isOriginator ∧ securityRequired.mode4Level4 ∧
      (!env.supportsSecureConnections ∨ !d.supportsSecureConnections) then
    ⟨g, some d, BtmStatus.mode4Level4NotSupported,
      match pCallback with
      | some cb => [Action.invokeCallback cb Transport.brEdr pRefData
          BtmStatus.mode4Level4NotSupported]
      | none => []⟩
  else if d.pCallback ≠ none ∨ g.pairingState ≠ PairingState.idle then
    let rc0 :=
      if busyLegacyMode g d isOriginator then
        (if busyEvalSuccess d securityRequired isOriginator then
          BtmStatus.success
        else BtmStatus.cmdStarted)
      else BtmStatus.cmdStarted
    let rc1 :=
      if rc0 = BtmStatus.success ∧ securityRequired.mode4Level4 ∧
          d.linkKeyType ≠ LinkKeyType.authCombP256 then
        BtmStatus.cmdStarted
      else rc0
    if busyLegacyMode g d isOriginator ∧ rc1 = BtmStatus.success then
      let rc2 :=
        if access_secure_service_from_temp_bond d isOriginator
            securityRequired then
          BtmStatus.failedOnSecurity
        else rc1
      ⟨g, some d, rc2,
        match pCallback with
        | some cb => [Action.invokeCallback cb Transport.brEdr pRefData rc2]
        | none => []⟩
    else
      ⟨{ g with secReqPending := true }, some d, BtmStatus.cmdStarted, []⟩
  else
    let d1 := { d with requiredSecurityFlagsForPairing := securityRequired }
    let afterSm4 : Option (SecReq × Bool) :=
      if g.securityMode = SecurityMode.sp ∨
          g.securityMode = SecurityMode.sc then
        if d1.sm4.isSm4 then
          (if isOriginator then
            some ({ securityRequired with outEncrypt := true }, false)
          else
            some ({ securityRequired with inEncrypt := true }, true))
        else if !d1.sm4.known then none
        else some (securityRequired, false)
      else some (securityRequired, false)
    match afterSm4 with
    | none =>
        ⟨g, some { d1 with sm4 := { d1.sm4 with reqPend := true } },
          BtmStatus.cmdStarted, []⟩
    | some (secReq2, chkAcpAuthDone) =>
        let d2 := { d1 with
          securityRequired := secReq2
          pRefData := pRefData
          isOriginator := isOriginator }
        if chkAcpAuthDone ∧ (!d2.secFlags.authenticated ∨
            !d2.secFlags.encrypted) then
          ⟨g, some { d2 with
              pCallback := pCallback
              secState := SecState.delayForEnc },
            BtmStatus.success,
            match pCallback with
            | some cb => [Action.invokeCallback cb Transport.brEdr pRefData
                BtmStatus.delayCheck]
            | none => []⟩
        else
          let d3 := { d2 with pCallback := pCallback }
          let d4 :=
            if d3.sm4.isSm4 then
              if d3.securityRequired.mode4Level4 ∧
                  d3.linkKeyType ≠ LinkKeyType.authCombP256 then
                { d3 with
                  sm4 := { d3.sm4 with
                    upgrade := d3.sm4.upgrade || d3.secFlags.linkKeyKnown }
                  secFlags := { d3.secFlags with
                    linkKeyKnown := false
                    linkKeyAuthed := false
                    authenticated := false } }
              else btm_sec_check_upgrade g d3 isOriginator
            else d3
          let r := btm_sec_execute_procedure env d4
          if r.status ≠ BtmStatus.cmdStarted then
            ⟨g, some { r.dev with pCallback := none }, r.status,
              r.actions ++
                match pCallback with
                | some cb => [Action.invokeCallback cb Transport.brEdr
                    r.dev.pRefData r.status]
                | none => []⟩
          else ⟨g, some r.dev, r.status, r.actions⟩

/-- Constant `BT_PSM_RFCOMM`.
Modelled from the spec: the PSM constants live in a header outside the
extracted sources; RFCOMM's assigned L2CAP PSM is 3. -/
def btPsmRfcomm : Nat := 3

/-- Function `btm_sec_mx_access_request` (btm_sec.cc:1952-2106).
`lookup` is the result of `btm_find_or_alloc_dev`.  Unlike the L2CAP
variant, the busy path re-checks `sec_state != BTM_SEC_STATE_IDLE` after
the legacy evaluation, forcing `BTM_CMD_STARTED` (and queueing) even
after a success determination, and the callback is invoked with the
all-zero transport value the C code passes (`false`, i.e. AUTO). -/
def btm_sec_mx_access_request (env : Env) (g : Global) (lookup : DevRec)
    (bdAddr : Nat) (isOriginator : Bool) (securityRequired : SecReq)
    (pCallback : Option Nat) (pRefData : Nat) : EntryResult :=
  let d := lookup
  if d.pCallback ≠ none ∨ g.pairingState ≠ PairingState.idle then
    let rc0 :=
      if busyLegacyMode g d isOriginator then
        (if busyEvalSuccess d securityRequired isOriginator then
          BtmStatus.success
        else BtmStatus.cmdStarted)
      else BtmStatus.cmdStarted
    let rc1 :=
      if busyLegacyMode g d isOriginator ∧ rc0 = BtmStatus.success ∧
          securityRequired.mode4Level4 ∧
          d.linkKeyType ≠ LinkKeyType.authCombP256 then
        BtmStatus.cmdStarted
      else rc0
    let rc2 :=
      if d.secState ≠ SecState.idle then BtmStatus.cmdStarted else rc1
    if rc2 = BtmStatus.cmdStarted then
      ⟨btm_sec_queue_mx_request g bdAddr btPsmRfcomm isOriginator
          securityRequired pCallback pRefData,
        some d, rc2, []⟩
    else
      let rc3 :=
        if access_secure_service_from_temp_bond d isOriginator
            securityRequired then
          BtmStatus.failedOnSecurity
        else rc2
      ⟨g, some d, rc3,
        match pCallback with
        | some cb => [Action.invokeCallback cb Transport.auto pRefData rc3]
        | none => []⟩
  else if !isOriginator ∧ (securityRequired.mode4Level4 ∨
      g.securityMode = SecurityMode.sc) ∧
      (!env.supportsSecureConnections ∨ !d.supportsSecureConnections) then
    ⟨g, some d, BtmStatus.mode4Level4NotSupported,
      match pCallback with
      | some cb => [Action.invokeCallback cb Transport.auto pRefData
          BtmStatus.mode4Level4NotSupported]
      | none => []⟩
  else
    let secReq2 := { securityRequired with
      outMitm := securityRequired.outMitm ||
        securityRequired.outAuthenticate
      inMitm := securityRequired.inMitm ||
        securityRequired.inAuthenticate }
    let d1 := { d with
      requiredSecurityFlagsForPairing := secReq2
      securityRequired := secReq2 }
    let d2 :=
      if (g.securityMode = SecurityMode.sp ∨
          g.securityMode = SecurityMode.sc) ∧ d1.sm4.isSm4 then
        if d1.securityRequired.mode4Level4 ∧
            d1.linkKeyType ≠ LinkKeyType.authCombP256 then
          { d1 with
            sm4 := { d1.sm4 with
              upgrade := d1.sm4.upgrade || d1.secFlags.linkKeyKnown }
            secFlags := { d1.secFlags with
              linkKeyKnown := false
              linkKeyAuthed := false
              authenticated := false } }
        else btm_sec_check_upgrade g d1 isOriginator
      else d1
    let d3 := { d2 with
      isOriginator := isOriginator
      pCallback := pCallback
      pRefData := pRefData }
    let r := btm_sec_execute_procedure env d3
    if r.status ≠ BtmStatus.cmdStarted then
      match pCallback with
      | some cb =>
          ⟨g, some { r.dev with pCallback := none }, r.status,
            r.actions ++ [Action.invokeCallback cb Transport.auto pRefData
              r.status]⟩
      | none => ⟨g, some r.dev, r.status, r.actions⟩
    else ⟨g, some r.dev, r.status, r.actions⟩

/-- Function `btm_sec_check_prefetch_pin` (btm_sec.cc:5040-5082).  The
carkit class-of-device comparison is carried by the record's
`isCarkitCod` field; the `BTM_PINCodeReply` call and the application PIN
callback are outside boundaries recorded as actions.  Returns the updated
globals, the emitted actions and the function's boolean result. -/
def btm_sec_check_prefetch_pin (env : Env) (g : Global) (d : DevRec) :
    Global × List Action × Bool :=
  if d.isCarkitCod then
    if !g.securityModeChanged then
      ({ g with securityModeChanged := true },
        [Action.hciWriteAuthEnable true], false)
    else (g, [], false)
  else
    let changed := btm_sec_change_pairing_state env g
      PairingState.waitLocalPin
    if changed.1.pinCodeLen ≠ 0 then
      (changed.1, changed.2 ++ [Action.pinCodeReply d.bdAddr], true)
    else if env.pinCallbackRegistered ∧
        !changed.1.pairingFlags.pinReqd then
      let g2 :=
        if env.aclUpBrEdr d.bdAddr then
          { changed.1 with pairingFlags :=
              { changed.1.pairingFlags with pinReqd := true } }
        else changed.1
      (g2, changed.2 ++ [Action.pinCallback d.bdAddr], true)
    else (changed.1, changed.2, true)

/-- Function `btm_sec_dd_create_conn` (btm_sec.cc:2349-2366): ask L2CAP
to bring up an ACL for dedicated bonding; on `BTM_CMD_STARTED` just move
to WAIT_PIN_REQ, on `BTM_NO_RESOURCES` fail, otherwise (link already up)
additionally set the disconnect-when-done pairing flag. -/
def btm_sec_dd_create_conn (env : Env) (g : Global) (d : DevRec) :
    Global × BtmStatus × List Action :=
  let a0 := [Action.connectAclForSecurity d.bdAddr]
  if env.connectAclStatus = BtmStatus.cmdStarted then
    let changed := btm_sec_change_pairing_state env g
      PairingState.waitPinReq
    (changed.1, BtmStatus.cmdStarted, a0 ++ changed.2)
  else if env.connectAclStatus = BtmStatus.noResources then
    (g, BtmStatus.noResources, a0)
  else
    let g1 := { g with pairingFlags :=
        { g.pairingFlags with discWhenDone := true } }
    let changed := btm_sec_change_pairing_state env g1
      PairingState.waitPinReq
    (changed.1, BtmStatus.cmdStarted, a0 ++ changed.2)

/-- Maximum PIN code length `PIN_CODE_LEN`.
Modelled from the spec: the constant lives in a header outside the
extracted sources; a Bluetooth PIN code is at most 16 bytes. -/
def pinCodeLenMax : Nat := 16

/-- Function `btm_sec_bond_by_transport` (btm_sec.cc:862-1011).
`lookup` is the result of `btm_find_or_alloc_dev` (`none` when
allocation failed).  A non-IDLE global pairing state is rejected with
`BTM_WRONG_MODE` before anything is touched; afterwards the pairing
context is claimed, per-transport bonding is started, and any failure to
start drops the pairing machine back to IDLE. -/
def btm_sec_bond_by_transport (env : Env) (g : Global)
    (lookup : Option DevRec) (bdAddr : Nat) (transport : Transport)
    (pinLen : Nat) (pinSupplied : Bool) : EntryResult :=
  if g.pairingState ≠ PairingState.idle then
    ⟨g, lookup, BtmStatus.wrongMode, []⟩
  else
    match lookup with
    | none => ⟨g, none, BtmStatus.noResources, []⟩
    | some d =>
        if !env.controllerReady then
          ⟨g, some d, BtmStatus.noResources, []⟩
        else if (d.hciHandle ≠ none ∧ transport = Transport.brEdr ∧
            d.secFlags.authenticated) ∨
            (d.bleHciHandle ≠ none ∧ transport = Transport.le ∧
              d.secFlags.leAuthenticated) then
          ⟨g, some d, BtmStatus.success, []⟩
        else if env.deleteStoredLinkKeyStatus ≠ BtmStatus.success then
          ⟨g, some d, BtmStatus.noResources,
            [Action.hciDeleteStoredLinkKey bdAddr]⟩
        else
          let a0 := [Action.hciDeleteStoredLinkKey bdAddr]
          let savePin := pinSupplied ∧ pinLen ≤ pinCodeLenMax ∧ pinLen ≠ 0
          let g1 := { g with
            pinCodeLen := if savePin then pinLen else g.pinCodeLen
            pairingBda := bdAddr
            pairingFlags := { PairingFlags.cleared with
              weStartedDd := true } }
          let d1 := { d with
            pinCodeLength :=
              if savePin then pinLen else d.pinCodeLength
            securityRequired := { SecReq.none with
              outAuthenticate := true }
            isOriginator := true }
          if transport = Transport.le then
            let d2 := { d1 with secFlags := { d1.secFlags with
              leAuthenticated := false
              leEncrypted := false
              leLinkKeyKnown := false
              leLinkKeyAuthed := false } }
            if env.smpPairStarted then
              let g2 := { g1 with pairingFlags :=
                  { g1.pairingFlags with leActive := true } }
              let d3 := { d2 with secState := SecState.authenticating }
              let changed := btm_sec_change_pairing_state env g2
                PairingState.waitAuthComplete
              ⟨changed.1, some d3, BtmStatus.cmdStarted,
                a0 ++ [Action.smpPair bdAddr] ++ changed.2⟩
            else
              ⟨{ g1 with pairingFlags := PairingFlags.cleared }, some d2,
                BtmStatus.noResources, a0 ++ [Action.smpPair bdAddr]⟩
          else
            let d2 := { d1 with secFlags := { d1.secFlags with
              linkKeyKnown := false
              authenticated := false
              encrypted := false
              roleSwitched := false
              linkKeyAuthed := false } }
            let fixPin := !env.supportsSimplePairing ∧ d2.isKeyboardCod ∧
              g1.cfgPinType ≠ 1
            let g2 :=
              if fixPin then { g1 with pinTypeChanged := true } else g1
            let a1 := a0 ++ (if fixPin then [Action.hciWritePinType 1]
              else [])
            if env.aclUpAndHandleValid bdAddr transport then
              let changed := btm_sec_change_pairing_state env g2
                PairingState.waitPinReq
              ⟨changed.1, some d2, BtmStatus.cmdStarted,
                a1 ++ [Action.startAuthenticationDelayed bdAddr] ++
                  changed.2 ++ [Action.updateLcbBonding bdAddr true]⟩
            else
              let prefetch :=
                if !env.supportsSimplePairing ∨ d2.sm4.isExactlyKnown then
                  btm_sec_check_prefetch_pin env g2 d2
                else (g2, [], false)
              if prefetch.2.2 then
                ⟨prefetch.1, some d2, BtmStatus.cmdStarted,
                  a1 ++ prefetch.2.1⟩
              else
                let started : Global × BtmStatus × List Action :=
                  if (g2.securityMode = SecurityMode.sp ∨
                      g2.securityMode = SecurityMode.sc) ∧
                      d2.sm4.isSm4Unknown then
                    if !d2.sm4.connPend then
                      let changed := btm_sec_change_pairing_state env g2
                        PairingState.getRemName
                      (changed.1, env.readRemoteNameStatus,
                        changed.2 ++ [Action.readRemoteDeviceName bdAddr])
                    else
                      let changed := btm_sec_change_pairing_state env g2
                        PairingState.waitPinReq
                      (changed.1, BtmStatus.cmdStarted, changed.2)
                  else btm_sec_dd_create_conn env g2 d2
                if started.2.1 ≠ BtmStatus.cmdStarted then
                  let changed := btm_sec_change_pairing_state env
                    started.1 PairingState.idle
                  ⟨changed.1, some d2, started.2.1,
                    a1 ++ started.2.2 ++ changed.2⟩
                else
                  ⟨started.1, some d2, started.2.1, a1 ++ started.2.2⟩

/-- Function `BTM_SecBond` (btm_sec.cc:1028-1051): resolve an AUTO
transport from the address type and LE-link preference, reject a
transport that the device type (`BTM_ReadDevInfo`, read from the
environment) does not support with `BTM_ILLEGAL_ACTION`, and otherwise
delegate to `btm_sec_bond_by_transport`. -/
def BTM_SecBond (env : Env) (g : Global) (lookup : Option DevRec)
    (bdAddr : Nat) (addrTypePublic : Bool) (transport : Transport)
    (pinLen : Nat) (pinSupplied : Bool) : EntryResult :=
  let t1 :=
    if transport = Transport.auto then
      (if addrTypePublic then
        (if env.useLeLink bdAddr then Transport.le else Transport.brEdr)
      else Transport.le)
    else transport
  if (t1 = Transport.le ∧ !env.devTypeBle bdAddr) ∨
      (t1 = Transport.brEdr ∧ !env.devTypeBredr bdAddr) then
    ⟨g, lookup, BtmStatus.illegalAction, []⟩
  else btm_sec_bond_by_transport env g lookup bdAddr t1 pinLen pinSupplied

/-- Function `btm_sec_auth_timer_timeout` (btm_sec.cc:4752-4767): when
the deferred-authentication timer fires, re-resolve the record by
address; only a record that is neither already authenticated nor already
authenticating is moved to AUTHENTICATING and sent the HCI
authentication request. -/
def btm_sec_auth_timer_timeout (lookup : Option DevRec) :
    Option DevRec × List Action :=
  match lookup with
  | none => (none, [])
  | some d =>
      if btm_dev_authenticated d then (some d, [])
      else if d.secState = SecState.authenticating then (some d, [])
      else
        (some { d with secState := SecState.authenticating },
          [Action.hciAuthRequest (d.hciHandle.getD 0)])

/-- The all-false `sec_flags` value. -/
def SecFlags.none : SecFlags :=
  ⟨false, false, false, false, false, false, false, false, false, false,
    false, false⟩

/-- The all-false `sm4` value (`BTM_SM4_UNKNOWN`). -/
def SM4.unknownVal : SM4 := ⟨false, false, false, false, false, false, false⟩

/-- A baseline device record used by the concrete witness instances. -/
def sampleDev : DevRec where
  bdAddr := 7
  secState := SecState.idle
  secFlags := SecFlags.none
  securityRequired := SecReq.none
  requiredSecurityFlagsForPairing := SecReq.none
  hciHandle := some 3
  bleHciHandle := none
  isOriginator := true
  linkKeyType := LinkKeyType.comb
  bondTypeTemporary := false
  sm4 := SM4.unknownVal
  pCallback := none
  pRefData := 0
  rmtIoCaps := IoCap.io
  pinCodeLength := 0
  supportsSecureConnections := true
  isKeyboardCod := false
  isCarkitCod := false

/-- A baseline global control block used by the concrete witness
instances. -/
def sampleGlobal : Global where
  pairingState := PairingState.idle
  pairingFlags := PairingFlags.cleared
  pairingBda := 0
  pinCodeLen := 0
  securityMode := SecurityMode.sp
  collisionStartTime := 0
  secReqPending := false
  secPendingQ := []
  securityModeChanged := false
  pinTypeChanged := false
  locIoCaps := IoCap.io
  cfgPinType := 0

/-- A baseline environment used by the concrete witness instances. -/
def sampleEnv : Env where
  deviceUp := true
  controllerReady := true
  supportsSimplePairing := true
  supportsSecureConnections := true
  deleteStoredLinkKeyStatus := BtmStatus.success
  smpPairStarted := true
  aclUpBrEdr := fun _ => true
  aclUpLe := fun _ => true
  readRemoteNameStatus := BtmStatus.cmdStarted
  connectAclStatus := BtmStatus.cmdStarted
  bleSetEncryptionStatus := BtmStatus.cmdStarted
  aclUpAndHandleValidBrEdr := fun _ => true
  aclUpAndHandleValidLe := fun _ => true
  hciConnHandle := fun _ => some 3
  pinCallbackRegistered := true
  useLeLink := fun _ => false
  devTypeBredr := fun _ => true
  devTypeBle := fun _ => false

/-- A connected BR/EDR record that is already encrypted. -/
def sampleDevEncrypted : DevRec :=
  { sampleDev with secFlags := { SecFlags.none with
      nameKnown := true
      authenticated := true
      encrypted := true } }

/-- A connected BR/EDR record with a procedure already running. -/
def sampleDevBusy : DevRec :=
  { sampleDev with secState := SecState.authenticating }

/-- A connected BR/EDR record with every requirement satisfied. -/
def sampleDevDone : DevRec :=
  { sampleDev with
    secFlags := { SecFlags.none with
      nameKnown := true
      authenticated := true
      encrypted := true
      sixteenDigitPinAuthed := true }
    securityRequired := { SecReq.none with
      outAuthenticate := true
      outEncrypt := true } }

/-- An SSP-capable (2.1+) record whose one-shot retry flag is unset. -/
def sampleDevSm4 : DevRec :=
  { sampleDev with sm4 := { SM4.unknownVal with
      known := true
      sspTrue := true } }

/-- An SSP-capable record whose one-shot retry flag was already
consumed. -/
def sampleDevSm4Retry : DevRec :=
  { sampleDev with sm4 := { SM4.unknownVal with
      known := true
      sspTrue := true
      retry := true } }

/-- C2: whenever `btm_sec_dev_rec_cback_event` delivers the stored
per-record callback, the `p_callback` field is cleared strictly before
the invocation (the record state visible to the re-entrant callee has a
null callback, and the invoked pointer is the previously stored one),
and `btm_sec_check_pending_reqs` is the last step, performed
unconditionally after any invocation. -/
theorem cback_event_clears_before_invoke (d : DevRec) (status : BtmStatus)
    (isLe : Bool) :
    (btm_sec_dev_rec_cback_event d status isLe).dev.pCallback = none ∧
    (∀ cb t ref st r,
      CbEvent.invoke cb t ref st r ∈
          (btm_sec_dev_rec_cback_event d status isLe).events →
        r.pCallback = none ∧ d.pCallback = some cb) ∧
    (btm_sec_dev_rec_cback_event d status isLe).events.getLast? =
      some CbEvent.checkPendingReqs ∧
    (∀ cb, d.pCallback = some cb →
      CbEvent.invoke cb (if isLe then Transport.le else Transport.brEdr)
          d.pRefData status { d with pCallback := none } ∈
        (btm_sec_dev_rec_cback_event d status isLe).events) := by
  cases h : d.pCallback with
  | none =>
      refine ⟨?_, ?_, ?_, ?_⟩
      · simp [btm_sec_dev_rec_cback_event, h]
      · intro cb t ref st r hmem
        simp [btm_sec_dev_rec_cback_event, h] at hmem
      · simp [btm_sec_dev_rec_cback_event, h]
      · intro cb hcb
        simp [h] at hcb
  | some cb0 =>
      refine ⟨?_, ?_, ?_, ?_⟩
      · simp [btm_sec_dev_rec_cback_event, h]
      · intro cb t ref st r hmem
        simp [btm_sec_dev_rec_cback_event, h] at hmem
        rcases hmem with ⟨hcb, _, _, _, hr⟩
        subst hr
        subst hcb
        exact ⟨rfl, rfl⟩
      · simp [btm_sec_dev_rec_cback_event, h]
      · intro cb hcb
        injection hcb with hcb
        subst hcb
        simp [btm_sec_dev_rec_cback_event, h]

/-- C2 witness: concrete delivery with a stored callback. -/
theorem cback_event_clears_before_invoke_witness :
    (btm_sec_dev_rec_cback_event { sampleDev with pCallback := some 5 }
        BtmStatus.success false).dev.pCallback = none ∧
    (∀ cb t ref st r,
      CbEvent.invoke cb t ref st r ∈
          (btm_sec_dev_rec_cback_event
            { sampleDev with pCallback := some 5 }
            BtmStatus.success false).events →
        r.pCallback = none ∧
          ({ sampleDev with pCallback := some 5 } : DevRec).pCallback =
            some cb) ∧
    (btm_sec_dev_rec_cback_event { sampleDev with pCallback := some 5 }
        BtmStatus.success false).events.getLast? =
      some CbEvent.checkPendingReqs ∧
    (∀ cb,
      ({ sampleDev with pCallback := some 5 } : DevRec).pCallback =
          some cb →
      CbEvent.invoke cb (if false then Transport.le else Transport.brEdr)
          ({ sampleDev with pCallback := some 5 } : DevRec).pRefData
          BtmStatus.success
          { ({ sampleDev with pCallback := some 5 } : DevRec) with
            pCallback := none } ∈
        (btm_sec_dev_rec_cback_event { sampleDev with pCallback := some 5 }
          BtmStatus.success false).events) :=
  cback_event_clears_before_invoke { sampleDev with pCallback := some 5 }
    BtmStatus.success false

/-- C3 (amended): a call to `btm_sec_bond_by_transport` made while the
global pairing state is not IDLE returns `BTM_WRONG_MODE` immediately,
leaving the globals (including the pending queue) and the device record
untouched and emitting no action. -/
theorem bond_by_transport_busy_rejected (env : Env) (g : Global)
    (lookup : Option DevRec) (bdAddr : Nat) (transport : Transport)
    (pinLen : Nat) (pinSupplied : Bool)
    (h : g.pairingState ≠ PairingState.idle) :
    btm_sec_bond_by_transport env g lookup bdAddr transport pinLen
        pinSupplied =
      ⟨g, lookup, BtmStatus.wrongMode, []⟩ := by
  simp [btm_sec_bond_by_transport, h]

/-- C3 witness: a concrete busy-time bonding call. -/
theorem bond_by_transport_busy_rejected_witness :
    ({ sampleGlobal with pairingState := PairingState.waitPinReq }
        : Global).pairingState ≠ PairingState.idle ∧
    btm_sec_bond_by_transport sampleEnv
        { sampleGlobal with pairingState := PairingState.waitPinReq }
        (some sampleDev) 7 Transport.brEdr 0 false =
      ⟨{ sampleGlobal with pairingState := PairingState.waitPinReq },
        some sampleDev, BtmStatus.wrongMode, []⟩ :=
  ⟨by decide,
    bond_by_transport_busy_rejected sampleEnv
      { sampleGlobal with pairingState := PairingState.waitPinReq }
      (some sampleDev) 7 Transport.brEdr 0 false (by decide)⟩

/-- C3 counterexample: the other named bonding entry point `BTM_SecBond`,
called while the pairing state is not IDLE, can return
`BTM_ILLEGAL_ACTION` (transport / device-type mismatch is checked before
the pairing-state guard), not the wrong-mode error the claim
promises. -/
theorem secBond_busy_can_return_illegal_action :
    (BTM_SecBond sampleEnv
        { sampleGlobal with pairingState := PairingState.waitPinReq }
        (some sampleDev) 7 true Transport.le 0 false).status =
      BtmStatus.illegalAction ∧
    BtmStatus.illegalAction ≠ BtmStatus.wrongMode := by
  constructor
  · rfl
  · decide

/-- C8: `btm_sec_check_pending_reqs` does nothing unless the global
pairing state is IDLE; when it is IDLE the queue is emptied, the
deferred L2CAP request is resubmitted first if flagged, and every
drained element is resubmitted in FIFO order — through
`btm_sec_mx_access_request` when its psm is not 0 and through
`BTM_SetEncryption` when its psm is 0 — except that an element whose ACL
link is no longer up is dropped without any call. -/
theorem check_pending_reqs_drain (env : Env) (g : Global) :
    (g.pairingState ≠ PairingState.idle →
      btm_sec_check_pending_reqs env g = (g, [])) ∧
    (g.pairingState = PairingState.idle →
      (btm_sec_check_pending_reqs env g).1 =
        { g with secReqPending := false, secPendingQ := [] } ∧
      (btm_sec_check_pending_reqs env g).2 =
        (if g.secReqPending then [Action.resubmitL2capSecReq] else []) ++
          (g.secPendingQ.map (resubmitEntry env)).flatten) ∧
    (∀ e : QueueEntry, env.aclUp e.bdAddr e.transport = false →
      resubmitEntry env e = []) ∧
    (∀ e : QueueEntry, env.aclUp e.bdAddr e.transport = true → e.psm ≠ 0 →
      resubmitEntry env e =
        [Action.resubmitMx e.bdAddr e.isOrig e.rfcommSecurityRequirement
          e.pCallback e.pRefData]) ∧
    (∀ e : QueueEntry, env.aclUp e.bdAddr e.transport = true → e.psm = 0 →
      resubmitEntry env e =
        [Action.resubmitEnc e.bdAddr e.transport e.pCallback e.pRefData
          e.secAct]) := by
  refine ⟨?_, ?_, ?_, ?_, ?_⟩
  · intro h
    simp [btm_sec_check_pending_reqs, h]
  · intro h
    constructor
    · simp [btm_sec_check_pending_reqs, h]
    · simp [btm_sec_check_pending_reqs, h]
  · intro e he
    simp [resubmitEntry, he]
  · intro e he hpsm
    simp [resubmitEntry, he, hpsm]
  · intro e he hpsm
    simp [resubmitEntry, he, hpsm]

/-- C8 witness: concrete drain of a two-element queue (one live mx entry,
one direct-encryption entry whose link has dropped). -/
theorem check_pending_reqs_drain_witness :
    (({ sampleGlobal with
        secPendingQ := [⟨3, true, SecReq.none, some 4, 0, Transport.brEdr,
            BleSecAct.none, 7⟩,
          ⟨0, false, SecReq.none, some 5, 0, Transport.le, BleSecAct.none,
            9⟩] } : Global).pairingState ≠ PairingState.idle →
      btm_sec_check_pending_reqs sampleEnv
          { sampleGlobal with
            secPendingQ := [⟨3, true, SecReq.none, some 4, 0,
                Transport.brEdr, BleSecAct.none, 7⟩,
              ⟨0, false, SecReq.none, some 5, 0, Transport.le,
                BleSecAct.none, 9⟩] } =
        ({ sampleGlobal with
            secPendingQ := [⟨3, true, SecReq.none, some 4, 0,
                Transport.brEdr, BleSecAct.none, 7⟩,
              ⟨0, false, SecReq.none, some 5, 0, Transport.le,
                BleSecAct.none, 9⟩] }, [])) ∧
    (({ sampleGlobal with
        secPendingQ := [⟨3, true, SecReq.none, some 4, 0, Transport.brEdr,
            BleSecAct.none, 7⟩,
          ⟨0, false, SecReq.none, some 5, 0, Transport.le, BleSecAct.none,
            9⟩] } : Global).pairingState = PairingState.idle →
      (btm_sec_check_pending_reqs sampleEnv
          { sampleGlobal with
            secPendingQ := [⟨3, true, SecReq.none, some 4, 0,
                Transport.brEdr, BleSecAct.none, 7⟩,
              ⟨0, false, SecReq.none, some 5, 0, Transport.le,
                BleSecAct.none, 9⟩] }).1 =
        { ({ sampleGlobal with
            secPendingQ := [⟨3, true, SecReq.none, some 4, 0,
                Transport.brEdr, BleSecAct.none, 7⟩,
              ⟨0, false, SecReq.none, some 5, 0, Transport.le,
                BleSecAct.none, 9⟩] } : Global) with
          secReqPending := false, secPendingQ := [] } ∧
      (btm_sec_check_pending_reqs sampleEnv
          { sampleGlobal with
            secPendingQ := [⟨3, true, SecReq.none, some 4, 0,
                Transport.brEdr, BleSecAct.none, 7⟩,
              ⟨0, false, SecReq.none, some 5, 0, Transport.le,
                BleSecAct.none, 9⟩] }).2 =
        (if ({ sampleGlobal with
            secPendingQ := [⟨3, true, SecReq.none, some 4, 0,
                Transport.brEdr, BleSecAct.none, 7⟩,
              ⟨0, false, SecReq.none, some 5, 0, Transport.le,
                BleSecAct.none, 9⟩] } : Global).secReqPending then
          [Action.resubmitL2capSecReq] else []) ++
          (({ sampleGlobal with
              secPendingQ := [⟨3, true, SecReq.none, some 4, 0,
                  Transport.brEdr, BleSecAct.none, 7⟩,
                ⟨0, false, SecReq.none, some 5, 0, Transport.le,
                  BleSecAct.none, 9⟩] } : Global).secPendingQ.map
            (resubmitEntry sampleEnv)).flatten) ∧
    (∀ e : QueueEntry, sampleEnv.aclUp e.bdAddr e.transport = false →
      resubmitEntry sampleEnv e = []) ∧
    (∀ e : QueueEntry, sampleEnv.aclUp e.bdAddr e.transport = true →
      e.psm ≠ 0 →
      resubmitEntry sampleEnv e =
        [Action.resubmitMx e.bdAddr e.isOrig e.rfcommSecurityRequirement
          e.pCallback e.pRefData]) ∧
    (∀ e : QueueEntry, sampleEnv.aclUp e.bdAddr e.transport = true →
      e.psm = 0 →
      resubmitEntry sampleEnv e =
        [Action.resubmitEnc e.bdAddr e.transport e.pCallback e.pRefData
          e.secAct]) :=
  check_pending_reqs_drain sampleEnv
    { sampleGlobal with
      secPendingQ := [⟨3, true, SecReq.none, some 4, 0, Transport.brEdr,
          BleSecAct.none, 7⟩,
        ⟨0, false, SecReq.none, some 5, 0, Transport.le, BleSecAct.none,
          9⟩] }

/-- C10: `BTM_SetEncryption` on an address with no device record returns
`BTM_WRONG_MODE` with no callback at all, whereas on a known BR/EDR
device whose classic link is down it schedules the supplied callback
with `BTM_WRONG_MODE` and then returns the same status. -/
theorem setEncryption_unknown_vs_unconnected (env : Env) (g : Global)
    (d : DevRec) (bdAddr cb ref : Nat) (secAct : BleSecAct) :
    BTM_SetEncryption env g none bdAddr Transport.brEdr (some cb) ref
        secAct =
      ⟨g, none, BtmStatus.wrongMode, []⟩ ∧
    (d.hciHandle = none →
      BTM_SetEncryption env g (some d) bdAddr Transport.brEdr (some cb)
          ref secAct =
        ⟨g, some d, BtmStatus.wrongMode,
          [Action.scheduleCallback cb Transport.brEdr ref
            BtmStatus.wrongMode]⟩) := by
  constructor
  · simp [BTM_SetEncryption]
  · intro h
    simp [BTM_SetEncryption, h]

/-- C10 witness: concrete unknown-device and known-but-unconnected
calls. -/
theorem setEncryption_unknown_vs_unconnected_witness :
    BTM_SetEncryption sampleEnv sampleGlobal none 7 Transport.brEdr
        (some 4) 0 BleSecAct.none =
      ⟨sampleGlobal, none, BtmStatus.wrongMode, []⟩ ∧
    (({ sampleDev with hciHandle := none } : DevRec).hciHandle = none →
      BTM_SetEncryption sampleEnv sampleGlobal
          (some { sampleDev with hciHandle := none }) 7 Transport.brEdr
          (some 4) 0 BleSecAct.none =
        ⟨sampleGlobal, some { sampleDev with hciHandle := none },
          BtmStatus.wrongMode,
          [Action.scheduleCallback 4 Transport.brEdr 0
            BtmStatus.wrongMode]⟩) :=
  setEncryption_unknown_vs_unconnected sampleEnv sampleGlobal
    { sampleDev with hciHandle := none } 7 4 0 BleSecAct.none

/-- C4: `BTM_SetEncryption` on a known device whose requested transport
is already encrypted returns `BTM_SUCCESS` immediately, schedules the
supplied callback with the success status, issues no HCI command and
leaves the record and the globals unchanged; when the transport is up
but not yet encrypted and the record is busy (outstanding callback or
non-IDLE security state), the request is appended to the pending queue
and `BTM_CMD_STARTED` is returned. -/
theorem setEncryption_idempotent_or_queued (env : Env) (g : Global)
    (d : DevRec) (bdAddr cb ref : Nat) (secAct : BleSecAct) :
    (d.hciHandle ≠ none → d.secFlags.encrypted = true →
      BTM_SetEncryption env g (some d) bdAddr Transport.brEdr (some cb)
          ref secAct =
        ⟨g, some d, BtmStatus.success,
          [Action.scheduleCallback cb Transport.brEdr ref
            BtmStatus.success]⟩) ∧
    (d.bleHciHandle ≠ none → d.secFlags.leEncrypted = true →
      BTM_SetEncryption env g (some d) bdAddr Transport.le (some cb) ref
          secAct =
        ⟨g, some d, BtmStatus.success,
          [Action.scheduleCallback cb Transport.le ref
            BtmStatus.success]⟩) ∧
    (d.hciHandle ≠ none → d.secFlags.encrypted = false →
      (d.pCallback ≠ none ∨ d.secState ≠ SecState.idle) →
      BTM_SetEncryption env g (some d) bdAddr Transport.brEdr (some cb)
          ref secAct =
        ⟨btm_sec_queue_encrypt_request g bdAddr Transport.brEdr (some cb)
            ref secAct,
          some d, BtmStatus.cmdStarted, []⟩) ∧
    (d.bleHciHandle ≠ none → d.secFlags.leEncrypted = false →
      (d.pCallback ≠ none ∨ d.secState ≠ SecState.idle) →
      BTM_SetEncryption env g (some d) bdAddr Transport.le (some cb) ref
          secAct =
        ⟨btm_sec_queue_encrypt_request g bdAddr Transport.le (some cb) ref
            secAct,
          some d, BtmStatus.cmdStarted, []⟩) := by
  refine ⟨?_, ?_, ?_, ?_⟩
  · intro h1 h2
    simp [BTM_SetEncryption, h1, h2]
  · intro h1 h2
    simp [BTM_SetEncryption, h1, h2]
  · intro h1 h2 h3
    simp [BTM_SetEncryption, h1, h2, h3]
  · intro h1 h2 h3
    simp [BTM_SetEncryption, h1, h2, h3]

/-- C4 witness: a concrete already-encrypted request and a concrete
busy-record request. -/
theorem setEncryption_idempotent_or_queued_witness :
    (sampleDevEncrypted.hciHandle ≠ none ∧
      sampleDevEncrypted.secFlags.encrypted = true ∧
      BTM_SetEncryption sampleEnv sampleGlobal (some sampleDevEncrypted) 7
          Transport.brEdr (some 4) 0 BleSecAct.none =
        ⟨sampleGlobal, some sampleDevEncrypted, BtmStatus.success,
          [Action.scheduleCallback 4 Transport.brEdr 0
            BtmStatus.success]⟩) ∧
    (sampleDevBusy.hciHandle ≠ none ∧
      sampleDevBusy.secFlags.encrypted = false ∧
      (sampleDevBusy.pCallback ≠ none ∨
        sampleDevBusy.secState ≠ SecState.idle) ∧
      BTM_SetEncryption sampleEnv sampleGlobal (some sampleDevBusy) 7
          Transport.brEdr (some 4) 0 BleSecAct.none =
        ⟨btm_sec_queue_encrypt_request sampleGlobal 7 Transport.brEdr
            (some 4) 0 BleSecAct.none,
          some sampleDevBusy, BtmStatus.cmdStarted, []⟩) :=
  ⟨⟨by decide, by decide,
      (setEncryption_idempotent_or_queued sampleEnv sampleGlobal
        sampleDevEncrypted 7 4 0 BleSecAct.none).1 (by decide)
        (by decide)⟩,
    ⟨by decide, by decide, Or.inr (by decide),
      (setEncryption_idempotent_or_queued sampleEnv sampleGlobal
        sampleDevBusy 7 4 0 BleSecAct.none).2.2.1 (by decide) (by decide)
        (Or.inr (by decide))⟩⟩

/-- C5: `btm_sec_execute_procedure` on a record whose security state is
neither IDLE nor LE-encrypting returns `BTM_CMD_STARTED` without
touching anything; on an IDLE record whose name, authentication and
encryption requirements are all satisfied it fails with
`BTM_FAILED_ON_SECURITY` when Secure-Connections-only is demanded but
the link key type is not the authenticated P-256 type, fails with the
same status when a non-locally-initiated request needs incoming
authentication on a temporary bond, and otherwise clears the satisfied
authenticate / encrypt bits from `security_required` and returns
`BTM_SUCCESS`. -/
theorem execute_procedure_busy_or_terminal (env : Env) (d : DevRec) :
    (d.secState ≠ SecState.idle → d.secState ≠ SecState.leEncrypting →
      btm_sec_execute_procedure env d = ⟨d, BtmStatus.cmdStarted, []⟩) ∧
    (d.secState = SecState.idle → d.secFlags.nameKnown = true →
      d.secFlags.authenticated = true → d.secFlags.encrypted = true →
      (d.secFlags.sixteenDigitPinAuthed = true ∨ d.isOriginator = true ∨
        d.securityRequired.inMin16DigitPin = false) →
      (d.securityRequired.mode4Level4 = true →
        d.linkKeyType ≠ LinkKeyType.authCombP256 →
        btm_sec_execute_procedure env d =
          ⟨d, BtmStatus.failedOnSecurity, []⟩) ∧
      (¬(d.securityRequired.mode4Level4 = true ∧
          d.linkKeyType ≠ LinkKeyType.authCombP256) →
        access_secure_service_from_temp_bond d d.isLocallyInitiated
            d.securityRequired = true →
        btm_sec_execute_procedure env d =
          ⟨d, BtmStatus.failedOnSecurity, []⟩) ∧
      (¬(d.securityRequired.mode4Level4 = true ∧
          d.linkKeyType ≠ LinkKeyType.authCombP256) →
        access_secure_service_from_temp_bond d d.isLocallyInitiated
            d.securityRequired = false →
        btm_sec_execute_procedure env d =
          ⟨{ d with securityRequired := { d.securityRequired with
              outAuthenticate := false
              inAuthenticate := false
              outEncrypt := false
              inEncrypt := false } },
            BtmStatus.success, []⟩)) := by
  constructor
  · intro h1 h2
    simp [btm_sec_execute_procedure, h1, h2]
  · intro hIdle hName hAuth hEnc h16
    have hSA : execStartAuth d = false := by
      rcases h16 with h16 | h16 | h16 <;>
        simp [execStartAuth, DevRec.isLocallyInitiated, hAuth, h16]
    refine ⟨?_, ?_, ?_⟩
    · intro hM hK
      simp [btm_sec_execute_procedure, hIdle, hName, hAuth, hEnc, hSA,
        hM, hK]
    · intro hM hT
      simp only [btm_sec_execute_procedure, hIdle, hName, hAuth, hEnc,
        hSA] at *
      simp [hM, hT, hIdle, hName, hEnc, hSA]
    · intro hM hT
      simp [btm_sec_execute_procedure, hIdle, hName, hAuth, hEnc, hSA,
        hM, hT]

/-- C5 witness: a concrete busy record and a concrete fully satisfied
record. -/
theorem execute_procedure_busy_or_terminal_witness :
    (btm_sec_execute_procedure sampleEnv sampleDevBusy =
      ⟨sampleDevBusy, BtmStatus.cmdStarted, []⟩) ∧
    (btm_sec_execute_procedure sampleEnv sampleDevDone =
      ⟨{ sampleDevDone with securityRequired :=
          { sampleDevDone.securityRequired with
            outAuthenticate := false
            inAuthenticate := false
            outEncrypt := false
            inEncrypt := false } },
        BtmStatus.success, []⟩) :=
  ⟨(execute_procedure_busy_or_terminal sampleEnv sampleDevBusy).1
      (by decide) (by decide),
    ((execute_procedure_busy_or_terminal sampleEnv sampleDevDone).2
      (by decide) (by decide) (by decide) (by decide)
      (Or.inl (by decide))).2.2 (by decide) (by decide)⟩

/-- C6 (amended): within the 5 s collision window an LMP-collision for a
record in the authenticating or BR/EDR-encrypting state resets the
record to IDLE and arms the 1 s collision timer (no failure is
surfaced); once the window has elapsed no timer is armed and the record
is left unchanged (its security state is not reset); and expiry of the
collision timer re-runs `btm_sec_execute_procedure` for the collided
record. -/
theorem auth_collision_bounded_retry (env : Env) (g : Global) (now : Nat)
    (d : DevRec) (lookup : Option DevRec) :
    (u64sub now (if g.collisionStartTime = 0 then now
          else g.collisionStartTime) < btmSecMaxCollisionDelay →
      (d.secState = SecState.authenticating ∨
        d.isSecurityStateBredrEncrypting = true) →
      btm_sec_auth_collision g now (some d) =
        ⟨if g.collisionStartTime = 0 then
            { g with collisionStartTime := now }
          else g,
          some { d with secState := SecState.idle },
          [Action.armCollisionTimer bt1secTimeoutMs]⟩) ∧
    (¬ u64sub now (if g.collisionStartTime = 0 then now
          else g.collisionStartTime) < btmSecMaxCollisionDelay →
      btm_sec_auth_collision g now lookup =
        ⟨if g.collisionStartTime = 0 then
            { g with collisionStartTime := now }
          else g,
          lookup, []⟩) ∧
    ((btm_sec_execute_procedure env d).status = BtmStatus.cmdStarted →
      btm_sec_collision_timeout env d =
        ((btm_sec_execute_procedure env d).dev,
          (btm_sec_execute_procedure env d).actions)) := by
  refine ⟨?_, ?_, ?_⟩
  · intro hw hd
    by_cases hz : g.collisionStartTime = 0 <;>
      simp [btm_sec_auth_collision, hz] at hw ⊢ <;>
      simp [hw, hd]
  · intro hw
    by_cases hz : g.collisionStartTime = 0 <;>
      simp [btm_sec_auth_collision, hz] at hw ⊢ <;>
      simp [hw]
  · intro hs
    simp [btm_sec_collision_timeout, hs]

/-- C6 witness: a concrete first collision inside the window and a
concrete timer expiry that restarts the procedure. -/
theorem auth_collision_bounded_retry_witness :
    (btm_sec_auth_collision sampleGlobal 500 (some sampleDevBusy) =
      ⟨if sampleGlobal.collisionStartTime = 0 then
          { sampleGlobal with collisionStartTime := 500 }
        else sampleGlobal,
        some { sampleDevBusy with secState := SecState.idle },
        [Action.armCollisionTimer bt1secTimeoutMs]⟩) ∧
    (btm_sec_collision_timeout sampleEnv sampleDevBusy =
      ((btm_sec_execute_procedure sampleEnv sampleDevBusy).dev,
        (btm_sec_execute_procedure sampleEnv sampleDevBusy).actions)) :=
  ⟨(auth_collision_bounded_retry sampleEnv sampleGlobal 500 sampleDevBusy
      (some sampleDevBusy)).1 (by decide) (Or.inl (by decide)),
    (auth_collision_bounded_retry sampleEnv sampleGlobal 500 sampleDevBusy
      (some sampleDevBusy)).2.2 (by decide)⟩

/-- C6 counterexample: after the 5 s window has elapsed the collided
record is left in its current (authenticating) state — it is not left
IDLE as the claim states. -/
theorem auth_collision_window_elapsed_not_idled :
    (btm_sec_auth_collision { sampleGlobal with collisionStartTime := 1000 }
        7000 (some sampleDevBusy)).actions = [] ∧
    (btm_sec_auth_collision { sampleGlobal with collisionStartTime := 1000 }
        7000 (some sampleDevBusy)).dev = some sampleDevBusy ∧
    sampleDevBusy.secState ≠ SecState.idle := by
  refine ⟨by decide, by decide, by decide⟩

/-- C7 (amended): a key-missing authentication failure for an
SSP-capable peer whose one-shot retry flag is unset, received while the
global pairing state is IDLE, makes `btm_sec_auth_retry` set the retry
flag, clear the cached link-key-known flag, reset the security state to
IDLE and restart the procedure, reporting the failure as absorbed; a
record whose retry flag was already consumed is not retried (the
failure is surfaced) and only has its retry flag cleared. -/
theorem auth_retry_one_shot (env : Env) (g : Global) (d : DevRec)
    (status : HciStatus) :
    (g.pairingState = PairingState.idle → d.sm4.retry = false →
      d.sm4.known = true → d.sm4.sspTrue = true →
      status = HciStatus.keyMissing →
      (btm_sec_auth_retry env g (some d) status).retried = true ∧
      (btm_sec_auth_retry env g (some d) status).dev =
        some (btm_sec_execute_procedure env
          { d with
            sm4 := { d.sm4 with retry := true }
            secFlags := { d.secFlags with linkKeyKnown := false }
            secState := SecState.idle }).dev ∧
      (btm_sec_auth_retry env g (some d) status).g =
        (btm_restore_mode { g with collisionStartTime := 0 }).1) ∧
    (d.sm4.retry = true →
      (btm_sec_auth_retry env g (some d) status).retried = false ∧
      (btm_sec_auth_retry env g (some d) status).dev =
        some { d with sm4 := { d.sm4 with retry := false } } ∧
      (btm_sec_auth_retry env g (some d) status).actions = []) := by
  constructor
  · intro hp hr hk hs hst
    simp [btm_sec_auth_retry, hp, hr, hk, hs, hst, SM4.isSm4]
  · intro hr
    simp [btm_sec_auth_retry, hr]

/-- C7 witness: a concrete first key-missing retry and a concrete
second (surfaced) failure. -/
theorem auth_retry_one_shot_witness :
    ((btm_sec_auth_retry sampleEnv sampleGlobal (some sampleDevSm4)
        HciStatus.keyMissing).retried = true ∧
      (btm_sec_auth_retry sampleEnv sampleGlobal (some sampleDevSm4)
          HciStatus.keyMissing).dev =
        some (btm_sec_execute_procedure sampleEnv
          { sampleDevSm4 with
            sm4 := { sampleDevSm4.sm4 with retry := true }
            secFlags := { sampleDevSm4.secFlags with
              linkKeyKnown := false }
            secState := SecState.idle }).dev ∧
      (btm_sec_auth_retry sampleEnv sampleGlobal (some sampleDevSm4)
          HciStatus.keyMissing).g =
        (btm_restore_mode
          { sampleGlobal with collisionStartTime := 0 }).1) ∧
    ((btm_sec_auth_retry sampleEnv sampleGlobal (some sampleDevSm4Retry)
        HciStatus.keyMissing).retried = false ∧
      (btm_sec_auth_retry sampleEnv sampleGlobal (some sampleDevSm4Retry)
          HciStatus.keyMissing).dev =
        some { sampleDevSm4Retry with
          sm4 := { sampleDevSm4Retry.sm4 with retry := false } } ∧
      (btm_sec_auth_retry sampleEnv sampleGlobal (some sampleDevSm4Retry)
          HciStatus.keyMissing).actions = []) :=
  ⟨(auth_retry_one_shot sampleEnv sampleGlobal sampleDevSm4
      HciStatus.keyMissing).1 (by decide) (by decide) (by decide)
      (by decide) (by decide),
    (auth_retry_one_shot sampleEnv sampleGlobal sampleDevSm4Retry
      HciStatus.keyMissing).2 (by decide)⟩

/-- C7 counterexample: the same key-missing failure with the retry flag
unset and an SSP-capable peer is not retried when the global pairing
state is not IDLE (e.g. during dedicated bonding), contradicting the
claim's unconditional retry. -/
theorem auth_retry_requires_idle_pairing :
    (btm_sec_auth_retry sampleEnv
        { sampleGlobal with pairingState := PairingState.waitAuthComplete }
        (some sampleDevSm4) HciStatus.keyMissing).retried = false ∧
    sampleDevSm4.sm4.retry = false ∧ sampleDevSm4.sm4.isSm4 = true := by
  refine ⟨by decide, by decide, by decide⟩

/-- Helper: under the both-directions requirement hypothesis, a record
for which the start-authentication trigger is off must already be
authenticated. -/
theorem execStartAuth_false_authenticated (d : DevRec)
    (hreq : (d.isOriginator = true →
        d.securityRequired.outAuthenticate = true ∧
          d.securityRequired.outEncrypt = true) ∧
      (d.isOriginator = false →
        d.securityRequired.inAuthenticate = true ∧
          d.securityRequired.inEncrypt = true))
    (hS : execStartAuth d = false) :
    d.secFlags.authenticated = true := by
  by_contra hA
  have hA' : d.secFlags.authenticated = false := by
    cases hfa : d.secFlags.authenticated
    · rfl
    · exact absurd hfa hA
  cases ho : d.isOriginator with
  | false =>
      rcases hreq.2 ho with ⟨h1, h2⟩
      simp [execStartAuth, DevRec.isLocallyInitiated, hA', ho, h1, h2]
        at hS
  | true =>
      rcases hreq.1 ho with ⟨h1, h2⟩
      simp [execStartAuth, DevRec.isLocallyInitiated, hA', ho, h1, h2]
        at hS

/-- C1: for a record that requires both authentication and encryption in
its active direction, `btm_sec_execute_procedure` only emits the HCI
set-connection-encryption command when the record is already
authenticated, only starts authentication when the remote name is
already known, and when the name is unknown on a live connection it
issues the remote name request first (or nothing at all when the
controller is down). -/
theorem execute_procedure_ordering (env : Env) (d : DevRec)
    (hreq : (d.isOriginator = true →
        d.securityRequired.outAuthenticate = true ∧
          d.securityRequired.outEncrypt = true) ∧
      (d.isOriginator = false →
        d.securityRequired.inAuthenticate = true ∧
          d.securityRequired.inEncrypt = true)) :
    (∀ h, Action.hciSetConnEncrypt h ∈
        (btm_sec_execute_procedure env d).actions →
      d.secFlags.authenticated = true) ∧
    (∀ a, Action.startAuthenticationDelayed a ∈
        (btm_sec_execute_procedure env d).actions →
      d.secFlags.nameKnown = true) ∧
    (d.secFlags.nameKnown = false → d.hciHandle ≠ none →
      d.secState = SecState.idle →
      (btm_sec_execute_procedure env d).actions =
        if env.deviceUp then [Action.sendRemoteNameRequest d.bdAddr]
        else []) := by
  refine ⟨?_, ?_, ?_⟩
  · intro h hmem
    simp only [btm_sec_execute_procedure] at hmem
    split at hmem
    · simp at hmem
    · split at hmem
      · split at hmem <;> simp at hmem
      · split at hmem
        · simp at hmem
        · split at hmem
          · rename_i hno_busy hno_name hno_auth henc
            refine execStartAuth_false_authenticated d hreq ?_
            cases hsa : execStartAuth d
            · rfl
            · exact absurd ⟨henc.2.2, hsa⟩ hno_auth
          · split at hmem
            · simp at hmem
            · split at hmem <;> simp at hmem
  · intro a hmem
    simp only [btm_sec_execute_procedure] at hmem
    split at hmem
    · simp at hmem
    · split at hmem
      · split at hmem <;> simp at hmem
      · split at hmem
        · rename_i hno_busy hno_name hauth
          cases hn : d.secFlags.nameKnown
          · exact absurd ⟨by simp [hn], hauth.1⟩ hno_name
          · rfl
        · split at hmem
          · simp at hmem
          · split at hmem
            · simp at hmem
            · split at hmem <;> simp at hmem
  · intro h1 h2 h3
    by_cases hup : env.deviceUp = true
    · simp [btm_sec_execute_procedure, h1, h2, h3, hup]
    · have hup' : env.deviceUp = false := by
        cases hu : env.deviceUp
        · rfl
        · exact absurd hu hup
      simp [btm_sec_execute_procedure, h1, h2, h3, hup']

/-- C1 witness: a concrete record requiring both authentication and
encryption. -/
theorem execute_procedure_ordering_witness :
    ((sampleDevDone.isOriginator = true →
        sampleDevDone.securityRequired.outAuthenticate = true ∧
          sampleDevDone.securityRequired.outEncrypt = true) ∧
      (sampleDevDone.isOriginator = false →
        sampleDevDone.securityRequired.inAuthenticate = true ∧
          sampleDevDone.securityRequired.inEncrypt = true)) ∧
    ((∀ h, Action.hciSetConnEncrypt h ∈
        (btm_sec_execute_procedure sampleEnv sampleDevDone).actions →
      sampleDevDone.secFlags.authenticated = true) ∧
    (∀ a, Action.startAuthenticationDelayed a ∈
        (btm_sec_execute_procedure sampleEnv sampleDevDone).actions →
      sampleDevDone.secFlags.nameKnown = true) ∧
    (sampleDevDone.secFlags.nameKnown = false →
      sampleDevDone.hciHandle ≠ none →
      sampleDevDone.secState = SecState.idle →
      (btm_sec_execute_procedure sampleEnv sampleDevDone).actions =
        if sampleEnv.deviceUp then
          [Action.sendRemoteNameRequest sampleDevDone.bdAddr]
        else [])) :=
  ⟨⟨fun _ => by decide, fun hf => by simp [sampleDevDone, sampleDev] at hf⟩,
    execute_procedure_ordering sampleEnv sampleDevDone
      ⟨fun _ => by decide, fun hf => by
        simp [sampleDevDone, sampleDev] at hf⟩⟩

/-- C9: on the busy path, after a legacy-mode evaluation that computed
success, `btm_sec_mx_access_request` re-checks the record's security
state and — when it is not IDLE — overrides the result back to
`BTM_CMD_STARTED` and queues the request, while
`btm_sec_l2cap_access_req_by_requirement` performs no such re-check and
delivers the computed success to the callback immediately; the two busy
paths therefore disagree on such a record. -/
theorem busy_path_divergence (env : Env) (g : Global) (d : DevRec)
    (bdAddr cb ref : Nat) (secReq : SecReq) (isOrig : Bool)
    (hBusy : d.pCallback ≠ none ∨ g.pairingState ≠ PairingState.idle)
    (hLegacy : busyLegacyMode g d isOrig = true)
    (hEval : busyEvalSuccess d secReq isOrig = true)
    (hM4 : secReq.mode4Level4 = false)
    (hState : d.secState ≠ SecState.idle)
    (hTemp : access_secure_service_from_temp_bond d isOrig secReq =
      false) :
    (btm_sec_mx_access_request env g d bdAddr isOrig secReq (some cb)
        ref).status = BtmStatus.cmdStarted ∧
    (btm_sec_mx_access_request env g d bdAddr isOrig secReq (some cb)
        ref).g.secPendingQ =
      g.secPendingQ ++ [⟨btPsmRfcomm, isOrig, secReq, some cb, ref,
        Transport.brEdr, BleSecAct.none, bdAddr⟩] ∧
    (btm_sec_mx_access_request env g d bdAddr isOrig secReq (some cb)
        ref).actions = [] ∧
    (btm_sec_l2cap_access_req_by_requirement env g d bdAddr secReq isOrig
        (some cb) ref).status = BtmStatus.success ∧
    (btm_sec_l2cap_access_req_by_requirement env g d bdAddr secReq isOrig
        (some cb) ref).actions =
      [Action.invokeCallback cb Transport.brEdr ref BtmStatus.success] ∧
    (btm_sec_mx_access_request env g d bdAddr isOrig secReq (some cb)
        ref).status ≠
      (btm_sec_l2cap_access_req_by_requirement env g d bdAddr secReq
        isOrig (some cb) ref).status := by
  have hBusy' :
      ({ d with hciHandle := env.hciConnHandle bdAddr } : DevRec).pCallback
          ≠ none ∨
        g.pairingState ≠ PairingState.idle := hBusy
  have hLegacy' :
      busyLegacyMode g { d with hciHandle := env.hciConnHandle bdAddr }
        isOrig = true := hLegacy
  have hEval' :
      busyEvalSuccess { d with hciHandle := env.hciConnHandle bdAddr }
        secReq isOrig = true := hEval
  have hTemp' :
      access_secure_service_from_temp_bond
        { d with hciHandle := env.hciConnHandle bdAddr } isOrig secReq =
      false := hTemp
  have hmx :
      (btm_sec_mx_access_request env g d bdAddr isOrig secReq (some cb)
          ref).status = BtmStatus.cmdStarted ∧
      (btm_sec_mx_access_request env g d bdAddr isOrig secReq (some cb)
          ref).g.secPendingQ =
        g.secPendingQ ++ [⟨btPsmRfcomm, isOrig, secReq, some cb, ref,
          Transport.brEdr, BleSecAct.none, bdAddr⟩] ∧
      (btm_sec_mx_access_request env g d bdAddr isOrig secReq (some cb)
          ref).actions = [] := by
    refine ⟨?_, ?_, ?_⟩ <;>
      simp [btm_sec_mx_access_request, btm_sec_queue_mx_request, hBusy,
        hLegacy, hEval, hM4, hState]
  have hl2 :
      (btm_sec_l2cap_access_req_by_requirement env g d bdAddr secReq
          isOrig (some cb) ref).status = BtmStatus.success ∧
      (btm_sec_l2cap_access_req_by_requirement env g d bdAddr secReq
          isOrig (some cb) ref).actions =
        [Action.invokeCallback cb Transport.brEdr ref
          BtmStatus.success] := by
    constructor <;>
      simp [btm_sec_l2cap_access_req_by_requirement, hBusy', hLegacy',
        hEval', hTemp', hM4]
  refine ⟨hmx.1, hmx.2.1, hmx.2.2, hl2.1, hl2.2, ?_⟩
  rw [hmx.1, hl2.1]
  decide

/-- C9 witness: a concrete busy record (outstanding callback, security
state AUTHENTICATING) in legacy service mode with no outstanding
requirement. -/
theorem busy_path_divergence_witness :
    (({ sampleDev with
        pCallback := some 9
        secState := SecState.authenticating } : DevRec).pCallback ≠ none ∨
      ({ sampleGlobal with securityMode := SecurityMode.service }
          : Global).pairingState ≠ PairingState.idle) ∧
    busyLegacyMode { sampleGlobal with securityMode := SecurityMode.service }
      { sampleDev with
        pCallback := some 9
        secState := SecState.authenticating } true = true ∧
    busyEvalSuccess
      { sampleDev with
        pCallback := some 9
        secState := SecState.authenticating } SecReq.none true = true ∧
    (btm_sec_mx_access_request sampleEnv
        { sampleGlobal with securityMode := SecurityMode.service }
        { sampleDev with
          pCallback := some 9
          secState := SecState.authenticating } 7 true SecReq.none
        (some 4) 0).status = BtmStatus.cmdStarted ∧
    (btm_sec_l2cap_access_req_by_requirement sampleEnv
        { sampleGlobal with securityMode := SecurityMode.service }
        { sampleDev with
          pCallback := some 9
          secState := SecState.authenticating } 7 SecReq.none true
        (some 4) 0).status = BtmStatus.success :=
  ⟨Or.inl (by decide), by decide, by decide,
    (busy_path_divergence sampleEnv
      { sampleGlobal with securityMode := SecurityMode.service }
      { sampleDev with
        pCallback := some 9
        secState := SecState.authenticating } 7 4 0 SecReq.none true
      (Or.inl (by decide)) (by decide) (by decide) (by decide) (by decide)
      (by decide)).1,
    (busy_path_divergence sampleEnv
      { sampleGlobal with securityMode := SecurityMode.service }
      { sampleDev with
        pCallback := some 9
        secState := SecState.authenticating } 7 4 0 SecReq.none true
      (Or.inl (by decide)) (by decide) (by decide) (by decide) (by decide)
      (by decide)).2.2.2.1⟩

end BtmSec
